import Mathlib

/-!
# Tetris-Overlay: shallow embedding of the game-state core (src/source/main.cpp)

Machine integers are modelled as `Int` (C++ `int`) and `Nat` (`uint64_t` scores,
`std::chrono::milliseconds` accumulators, which are non-negative at every call
site).  Boards are `List (List Int)` (the C++
`std::array<std::array<int, 10>, 20>`); out-of-range reads that the C++ guards
against are given the defined value `0`.  The 7 shape masks are kept in one
flattened 112-entry list, mirroring the contiguous memory layout of
`std::array<std::array<size_t, 16>, 7>`: an access `tetriminoShapes[type][idx]`
is modelled as reading flat index `type * 16 + idx`, which is exactly what the
compiled program does, including for the out-of-range index `-1` that
`getRotatedIndex` can return (for `type ≥ 1` that access lands on cell 15 of the
previous shape, which is `0` for every shape in the table).
-/

namespace TetrisOverlay

/-- `BOARD_WIDTH` from main.cpp. -/
def BOARD_WIDTH : Int := 10

/-- `BOARD_HEIGHT` from main.cpp. -/
def BOARD_HEIGHT : Int := 20

/-- The seven 4×4 occupancy masks `tetriminoShapes`, flattened row-major in
declaration order (I, J, L, O, S, T, Z), mirroring the contiguous layout of
`std::array<std::array<size_t, 16>, 7>`. -/
def tetriminoShapesFlat : List Nat :=
  [ 0,0,0,0, 1,1,1,1, 0,0,0,0, 0,0,0,0,
    1,0,0,0, 1,1,1,0, 0,0,0,0, 0,0,0,0,
    0,0,1,0, 1,1,1,0, 0,0,0,0, 0,0,0,0,
    1,1,0,0, 1,1,0,0, 0,0,0,0, 0,0,0,0,
    0,1,1,0, 1,1,0,0, 0,0,0,0, 0,0,0,0,
    0,1,0,0, 1,1,1,0, 0,0,0,0, 0,0,0,0,
    1,1,0,0, 0,1,1,0, 0,0,0,0, 0,0,0,0 ]

/-- The C++ expression `tetriminoShapes[type][idx]`, evaluated through the
contiguous memory layout (see module comment).  A negative flat address is
clamped to 0 by `Int.toNat`; that case only arises for `type = 0, idx < 0`,
which no execution path produces (`getRotatedIndex` never returns `-1` for the
I piece or the O piece). -/
def shapeCellAt (type idx : Int) : Nat :=
  tetriminoShapesFlat.getD (type * 16 + idx).toNat 0

/-- Transcription of `getRotatedIndex(int type, int i, int j, int rotation)`
from main.cpp.  For the general case the per-type rotation center is `(1, 1)`
(the `rotationCenters` table stores `{1, 1}` for every non-I piece, and the I
piece takes the hand-coded branch), and
`static_cast<int>(round(rotatedX + centerX))` is exactly `rotatedX + 1` because
`rotatedX` is an integer.  The C++ `switch` leaves `rotatedIndex = 0`
(I branch) resp. `rotatedX`/`rotatedY` uninitialized (general branch) for a
rotation outside 0..3; all call sites pass a rotation in 0..3, and we model the
unreachable default as the identity mapping. -/
def getRotatedIndex (type i j rotation : Int) : Int :=
  if i < 0 ∨ 4 ≤ i ∨ j < 0 ∨ 4 ≤ j then -1
  else if type = 0 then
    (if rotation = 0 then i * 4 + j
     else if rotation = 1 then (3 - i) + j * 4
     else if rotation = 2 then (3 - j) + (3 - i) * 4
     else if rotation = 3 then i + (3 - j) * 4
     else 0)
  else if type = 3 then i * 4 + j
  else
    let relX := j - 1
    let relY := i - 1
    let rot : Int × Int :=
      if rotation = 0 then (relX, relY)
      else if rotation = 1 then (-relY, relX)
      else if rotation = 2 then (-relX, -relY)
      else if rotation = 3 then (relY, -relX)
      else (relX, relY)
    let finalX := rot.1 + 1
    let finalY := rot.2 + 1
    if finalX < 0 ∨ 4 ≤ finalX ∨ finalY < 0 ∨ 4 ≤ finalY then -1
    else finalY * 4 + finalX

/-- `struct Tetrimino` from main.cpp. -/
structure Tetrimino where
  x : Int
  y : Int
  type : Int
  rotation : Int
deriving Repr, DecidableEq

/-- The `Tetrimino(int t)` constructor: `x = BOARD_WIDTH / 2 - 2 = 3`, `y = 0`,
`rotation = 0`. -/
def Tetrimino.make (t : Int) : Tetrimino := ⟨3, 0, t, 0⟩

/-- A board cell read `board[y][x]`.  All reads the C++ performs are guarded to
be in bounds (`0 ≤ y < 20`, `0 ≤ x < 10`); out-of-range coordinates are given
the defined value `0` here. -/
def cellAt (board : List (List Int)) (y x : Int) : Int :=
  if 0 ≤ y ∧ y < BOARD_HEIGHT ∧ 0 ≤ x ∧ x < BOARD_WIDTH then
    (board.getD y.toNat []).getD x.toNat 0
  else 0

/-- Transcription of `isPositionValid(const Tetrimino&, board)` from main.cpp:
for every cell of the 4×4 box whose (rotation-indexed) shape entry is non-zero,
the absolute position must be horizontally inside `[0, 10)`, vertically below
the board top is allowed (`y < 0` cells are skipped), `y ≥ 20` is invalid, and
an in-board cell must be empty.  The shape entry is read at the possibly
negative index `getRotatedIndex` returns, exactly as the C++ does (see
`shapeCellAt`). -/
def isPositionValid (t : Tetrimino) (board : List (List Int)) : Bool :=
  (List.range 4).all fun i => (List.range 4).all fun j =>
    let idx := getRotatedIndex t.type (i : Int) (j : Int) t.rotation
    if shapeCellAt t.type idx ≠ 0 then
      let x := t.x + (j : Int)
      let y := t.y + (i : Int)
      decide (0 ≤ x) && decide (x < BOARD_WIDTH) && decide (y < BOARD_HEIGHT) &&
        (decide (y < 0) || decide (cellAt board y x = 0))
    else true

/-- `wallKicksI` from main.cpp: SRS wall kicks for the I piece, indexed by
rotation transition. -/
def wallKicksI : List (List (Int × Int)) :=
  [ [(0, 0), (-2, 0), (1, 0), (-2, -1), (1, 2)],
    [(0, 0), (-1, 0), (2, 0), (-1, 2), (2, -1)],
    [(0, 0), (2, 0), (-1, 0), (2, 1), (-1, -2)],
    [(0, 0), (1, 0), (-2, 0), (1, -2), (-2, 1)] ]

/-- `wallKicksJLSTZ` from main.cpp: SRS wall kicks for J, L, S, T, Z pieces. -/
def wallKicksJLSTZ : List (List (Int × Int)) :=
  [ [(0, 0), (-1, 0), (-1, -1), (0, 2), (-1, 2)],
    [(0, 0), (1, 0), (1, 1), (0, -2), (1, -2)],
    [(0, 0), (1, 0), (1, -1), (0, 2), (1, 2)],
    [(0, 0), (-1, 0), (-1, 1), (0, -2), (-1, -2)] ]

/-- The 16 extended fallback kicks `rotatePiece` tries for the I piece when the
standard SRS kicks all fail. -/
def extraKicksI : List (Int × Int) :=
  [ (0, -1), (0, -2), (0, -3), (0, 1),
    (1, 0), (-1, 0), (2, 0), (-2, 0),
    (1, -1), (-1, -1), (0, 2),
    (1, 1), (-1, 1), (2, -1), (-2, -1), (1, -2) ]

/-- The 16 extended fallback kicks `rotatePiece` tries for J, L, S, T, Z when
the standard SRS kicks all fail. -/
def extraKicksJLSTZ : List (Int × Int) :=
  [ (0, 1), (0, -1), (1, 0), (-1, 0),
    (0, 2), (2, 0), (-2, 0),
    (1, 1), (-1, 1), (1, -1), (-1, -1),
    (0, -2), (2, 1), (-2, 1), (2, -1), (-2, -1) ]

/-- `maxLockDelayMoves` from main.cpp. -/
def maxLockDelayMoves : Int := 15

/-- The mutable game state of `TetrisGui` / `TetrisElement` relevant to the
game-state core: the board, the piece queue and hold slot, session counters,
the gravity/lock-delay timing state and the transient rotation flags.
Timestamps and millisecond accumulators are `Nat` (milliseconds of a steady
clock).  `rng` replaces the C side's `rand()` stream: each `rand()` call
consumes the head of the list. -/
structure GameState where
  board : List (List Int)
  current : Tetrimino
  nextT : Tetrimino
  nextT1 : Tetrimino
  nextT2 : Tetrimino
  stored : Tetrimino
  hasSwapped : Bool
  score : Nat
  maxHighScore : Nat
  linesCleared : Int
  level : Int
  linesClearedForLevelUp : Int
  paused : Bool
  gameOver : Bool
  fallCounter : Nat
  lockDelayCounter : Nat
  lockDelayMoves : Int
  lastRotationOrMoveTime : Nat
  timeSinceLastFrame : Nat
  totalSoftDropDistance : Int
  hardDropDistance : Int
  lastWallKickApplied : Bool
  previousClearWasTetris : Bool
  previousClearWasTSpin : Bool
  backToBackCount : Int
  pieceWasKickedUp : Bool
  linesClearedText : String
  linesClearedScore : Int
  rng : List Nat
deriving Repr, DecidableEq

/-- `TetrisElement::setScore(uint64_t)`: stores the score and raises
`maxHighScore` if the new score exceeds it. -/
def setScore (st : GameState) (s : Nat) : GameState :=
  { st with score := s,
            maxHighScore := if s > st.maxHighScore then s else st.maxHighScore }

/-- Transcription of `isOnFloor()` from main.cpp.  Note the first branch: when
`pieceWasKickedUp` is set the function returns `true` (its own comment says the
piece "is not on the floor" in that case).  Otherwise it reports contact when
some occupied cell has the bottom row or a filled board cell directly below
it. -/
def isOnFloor (st : GameState) : Bool :=
  if st.pieceWasKickedUp then true
  else
    (List.range 4).any fun i => (List.range 4).any fun j =>
      let idx := getRotatedIndex st.current.type (i : Int) (j : Int) st.current.rotation
      shapeCellAt st.current.type idx ≠ 0 &&
        (decide (BOARD_HEIGHT ≤ st.current.y + (i : Int) + 1) ||
         decide (cellAt st.board (st.current.y + (i : Int) + 1) (st.current.x + (j : Int)) ≠ 0))

/-- A piece translated by `(dx, dy)`; the tentative position `move` checks. -/
def pieceShift (t : Tetrimino) (dx dy : Int) : Tetrimino :=
  { t with x := t.x + dx, y := t.y + dy }

/-- Transcription of `move(int dx, int dy)` from main.cpp.  The C++ mutates
`x`/`y` and reverts on an invalid position; the net effect is modelled purely.
On a successful downward move the soft-drop distance accrues and (unless the
piece was recently kicked up) the lock delay state resets; on a successful
horizontal move the grounded lock-delay credit accounting runs.  `now` stands
for `std::chrono::steady_clock::now()`. -/
def move (st : GameState) (dx dy : Int) (now : Nat) : GameState × Bool :=
  let p := pieceShift st.current dx dy
  if ¬ isPositionValid p st.board then (st, false)
  else
    let st1 := { st with current := p }
    if dy > 0 then
      let st2 := { st1 with totalSoftDropDistance := st1.totalSoftDropDistance + dy }
      if ¬ st2.pieceWasKickedUp then
        ({ st2 with lockDelayMoves := 0, lockDelayCounter := 0 }, true)
      else (st2, true)
    else if dx ≠ 0 then
      if isOnFloor st1 then
        if st1.lockDelayMoves < maxLockDelayMoves then
          ({ st1 with lockDelayCounter := 0, lastRotationOrMoveTime := now,
                      lockDelayMoves := st1.lockDelayMoves + 1 }, true)
        else (st1, true)
      else
        ({ st1 with lockDelayCounter := 0, lastRotationOrMoveTime := now }, true)
    else (st1, true)

/-- The rotation search of `rotatePiece` (main.cpp lines 2006-2080), as a pure
function: try the un-kicked new rotation, then the 5 standard SRS kicks for the
transition, then the 16 extended fallback kicks; `none` means every candidate
position was invalid (the C++ then reverts `rotation`/`x`/`y`).  On success it
returns the accepted piece together with the values stored into
`lastWallKickApplied` and `pieceWasKickedUp`. -/
def rotateAttempt (board : List (List Int)) (cur : Tetrimino) (direction : Int) :
    Option (Tetrimino × Bool × Bool) :=
  let newRot := (cur.rotation + direction + 4).tmod 4
  let p1 := { cur with rotation := newRot }
  if isPositionValid p1 board then some (p1, false, false)
  else
    let kickIndex := if direction < 0 then cur.rotation else newRot
    let table := if cur.type = 0 then wallKicksI else wallKicksJLSTZ
    let kicks := table.getD kickIndex.toNat []
    match kicks.find? (fun k => isPositionValid { p1 with x := cur.x + k.1, y := cur.y + k.2 } board) with
    | some k => some ({ p1 with x := cur.x + k.1, y := cur.y + k.2 },
                      decide (k.1 ≠ 0 ∨ k.2 ≠ 0), decide (k.2 < 0))
    | none =>
      let extras := if cur.type = 0 then extraKicksI else extraKicksJLSTZ
      match extras.find? (fun k => isPositionValid { p1 with x := cur.x + k.1, y := cur.y + k.2 } board) with
      | some k => some ({ p1 with x := cur.x + k.1, y := cur.y + k.2 }, true, decide (k.2 < 0))
      | none => none

/-- Transcription of `rotatePiece(int direction)` from main.cpp: the O piece
returns immediately with nothing changed; otherwise the search of
`rotateAttempt` runs.  On failure `rotation`/`x`/`y` are reverted (modelled by
leaving them untouched) with `lastWallKickApplied` left `false` (it is cleared
before the search and not restored) and `pieceWasKickedUp` cleared.  On success
the grounded lock-delay credit accounting runs, using `isOnFloor` on the
updated state. -/
def rotatePiece (st : GameState) (direction : Int) (now : Nat) : GameState :=
  if st.current.type = 3 then st
  else
    match rotateAttempt st.board st.current direction with
    | some pk =>
      let st1 := { st with current := pk.1, lastWallKickApplied := pk.2.1,
                           pieceWasKickedUp := pk.2.2 }
      if isOnFloor st1 then
        if st1.lockDelayMoves < maxLockDelayMoves then
          { st1 with lockDelayCounter := 0, lastRotationOrMoveTime := now,
                     lockDelayMoves := st1.lockDelayMoves + 1 }
        else st1
      else { st1 with lockDelayCounter := 0, lastRotationOrMoveTime := now }
    | none => { st with lastWallKickApplied := false, pieceWasKickedUp := false }

/-- `rotate()` from main.cpp: records `rotation`/`x`/`y`, calls
`rotatePiece(-1)` (clockwise), and reports success iff any of the three
changed. -/
def rotate (st : GameState) (now : Nat) : GameState × Bool :=
  let st2 := rotatePiece st (-1) now
  (st2, decide (st2.current.rotation ≠ st.current.rotation ∨
                st2.current.x ≠ st.current.x ∨ st2.current.y ≠ st.current.y))

/-- `rotateCounterclockwise()` from main.cpp: as `rotate()` with
`rotatePiece(1)`. -/
def rotateCounterclockwise (st : GameState) (now : Nat) : GameState × Bool :=
  let st2 := rotatePiece st 1 now
  (st2, decide (st2.current.rotation ≠ st.current.rotation ∨
                st2.current.x ≠ st.current.x ∨ st2.current.y ≠ st.current.y))

/-- The left/right/rotate intent paths of `handleInput`: the move or rotation
runs, and afterwards (main.cpp lines 1797-1801) `handleInput` resets
`lockDelayCounter` to 0 whenever the action reported success, unconditionally.
This models a first press of the left/right direction (`moved = move(dx, 0)`)
followed by that trailing reset. -/
def inputMove (st : GameState) (dx : Int) (now : Nat) : GameState :=
  let r := move st dx 0 now
  if r.2 then { r.1 with lockDelayCounter := 0 } else r.1

/-- The rotation intent path of `handleInput` (KEY_A): `rotate()` followed by
the same unconditional `lockDelayCounter` reset on success. -/
def inputRotate (st : GameState) (now : Nat) : GameState :=
  let r := rotate st now
  if r.2 then { r.1 with lockDelayCounter := 0 } else r.1

/-- `isWithinBounds(int x, int y)` from main.cpp. -/
def isWithinBounds (x y : Int) : Bool :=
  decide (0 ≤ x) && decide (x < BOARD_WIDTH) && decide (0 ≤ y) && decide (y < BOARD_HEIGHT)

/-- Transcription of `isTSpin()` from main.cpp: only the T piece (type 5)
qualifies; at least 3 of the 4 diagonal neighbours of the center cell
`(x+1, y+1)` must be out of bounds or occupied, and the last rotation must have
applied a non-zero kick. -/
def isTSpinB (st : GameState) : Bool :=
  if st.current.type ≠ 5 then false
  else
    let cx := st.current.x + 1
    let cy := st.current.y + 1
    let corner : Int → Int → Nat := fun dx dy =>
      if !(isWithinBounds (cx + dx) (cy + dy)) || decide (cellAt st.board (cy + dy) (cx + dx) ≠ 0)
      then 1 else 0
    let blockedCorners := corner (-1) (-1) + corner 1 (-1) + corner (-1) 1 + corner 1 1
    decide (3 ≤ blockedCorners) && st.lastWallKickApplied

/-- Transcription of `isMiniTSpin()` from main.cpp: a T-piece rotation that
applied a kick but does not satisfy the full T-spin corner test. -/
def isMiniTSpinB (st : GameState) : Bool :=
  if st.current.type ≠ 5 then false
  else !(isTSpinB st) && st.lastWallKickApplied

/-- An all-empty board row. -/
def zeroRow : List Int := List.replicate 10 0

/-- The full-row test of `clearLines`: row cells `0..9` are all non-zero
(the C++ breaks out at the first zero cell). -/
def isFullRow (r : List Int) : Bool :=
  (List.range 10).all fun j => r.getD j 0 ≠ 0

/-- The shift performed by `clearLines` when row `i` is full: rows `1..i`
receive rows `0..i-1` and the top row is zeroed; equivalently, row `i` is
removed and an empty row is pushed on top. -/
def clearAt (b : List (List Int)) (i : Nat) : List (List Int) :=
  zeroRow :: (b.take i ++ b.drop (i + 1))

/-- The row-scanning loop of `clearLines` (main.cpp lines 2238-2269): indices
are visited top to bottom; a full row is shifted out immediately.  Returns the
resulting board together with `linesClearedInThisTurn`.  `fuel` counts the
remaining loop iterations (`BOARD_HEIGHT - i`). -/
def clearRowsAux : Nat → Nat → List (List Int) → List (List Int) × Nat
  | 0, _, b => (b, 0)
  | fuel + 1, i, b =>
    if isFullRow (b.getD i []) then
      let r := clearRowsAux fuel (i + 1) (clearAt b i)
      (r.1, r.2 + 1)
    else clearRowsAux fuel (i + 1) b

/-- The complete row-clearing pass over the 20 board rows. -/
def clearFullRows (b : List (List Int)) : List (List Int) × Nat :=
  clearRowsAux 20 0 b

/-- The spec's base-score table (§4.5): 1→100 (400 if T-spin, 100 if
mini-T-spin), 2→300 (700 if T-spin), 3→500, 4→800.  Written from the spec's
words, to be compared with what `clearLines` computes. -/
def specBaseScore (n : Nat) (tSpin : Bool) : Nat :=
  if n = 1 then (if tSpin then 400 else 100)
  else if n = 2 then (if tSpin then 700 else 300)
  else if n = 3 then 500
  else if n = 4 then 800
  else 0

/-- The spec's score delta (§4.5): the base, times 1.5 truncated when the clear
is back-to-back, times the level.  Written from the spec's words. -/
def specScoreDelta (n : Nat) (tSpin backToBack : Bool) (level : Nat) : Nat :=
  (if backToBack then specBaseScore n tSpin * 3 / 2 else specBaseScore n tSpin) * level

/-- Transcription of `clearLines()` from main.cpp: run the row-scanning pass;
if any lines cleared, update `linesCleared`, compute the back-to-back flag and
chain count, the base score by count (with T-spin variants; note `isTSpin` is
evaluated against the post-clear board, as in the source, where the rows were
already shifted before the scoring block runs), apply the ×1.5 back-to-back
bonus (`static_cast<int>(baseScore * 1.5f)` is exact for every value the table
produces, and equals `baseScore * 3 / 2`), multiply by the level, add to the
score through `setScore`, update the previous-clear flags, the level (one level
per 10 lines, remainder carried), and the feedback label.  The C++ adds the
`int` product to a `uint64_t`; a negative product (impossible for level ≥ 1)
is clamped at 0 here. -/
def clearLines (st : GameState) : GameState :=
  let cleared := clearFullRows st.board
  let n := cleared.2
  if n > 0 then
    let st0 := { st with board := cleared.1, linesCleared := st.linesCleared + (n : Int) }
    let tSpin := isTSpinB st0
    let mini := isMiniTSpinB st0
    let isBackToBack := (st0.previousClearWasTetris || st0.previousClearWasTSpin) &&
                        (decide (n = 4) || tSpin)
    let b2bCount := if isBackToBack then st0.backToBackCount + 1 else 1
    let baseScore : Nat :=
      if n = 1 then (if tSpin then (if mini then 100 else 400) else 100)
      else if n = 2 then (if tSpin then 700 else 300)
      else if n = 3 then 500
      else if n = 4 then 800
      else 0
    let baseScore := if (decide (n = 4) || tSpin) && isBackToBack
                     then baseScore * 3 / 2 else baseScore
    let newScore : Int := (baseScore : Int) * st0.level
    let st1 := setScore st0 (st0.score + newScore.toNat)
    let st1 := { st1 with linesClearedScore := newScore, backToBackCount := b2bCount }
    let st1 :=
      if n = 4 then
        { st1 with previousClearWasTetris := true, previousClearWasTSpin := false }
      else if tSpin then
        { st1 with previousClearWasTSpin := true, previousClearWasTetris := false }
      else
        { st1 with previousClearWasTetris := false, previousClearWasTSpin := false }
    let lflu := st1.linesClearedForLevelUp + (n : Int)
    let st1 :=
      if 10 ≤ lflu then
        { st1 with linesClearedForLevelUp := lflu - 10, level := st1.level + 1 }
      else { st1 with linesClearedForLevelUp := lflu }
    let label :=
      if n = 1 then (if tSpin then "T-Spin\nSingle" else "Single")
      else if n = 2 then (if tSpin then "T-Spin\nDouble" else "Double")
      else if n = 3 then "Triple"
      else if n = 4 then (if isBackToBack then toString b2bCount ++ "x Tetris" else "Tetris")
      else st1.linesClearedText
    { st1 with linesClearedText := label }
  else st

/-- The guarded write `board[y][x] = v` of `placeTetrimino`.  The C++ only
reaches the write with `y ≥ 0`; both coordinates are in range at every call
site because the placed piece is in a valid position, so the out-of-range
no-op of `List.set` is never exercised there. -/
def setCell (b : List (List Int)) (y x : Nat) (v : Int) : List (List Int) :=
  b.set y ((b.getD y []).set x v)

/-- The placement loop of `placeTetrimino` (main.cpp lines 2147-2167): each
occupied cell with `y ≥ 0` (and in range, see `setCell`) receives `type + 1`. -/
def placeCells (b : List (List Int)) (t : Tetrimino) : List (List Int) :=
  (List.range 4).foldl (fun acc i =>
    (List.range 4).foldl (fun acc2 j =>
      let idx := getRotatedIndex t.type (i : Int) (j : Int) t.rotation
      if shapeCellAt t.type idx ≠ 0 then
        let x := t.x + (j : Int)
        let y := t.y + (i : Int)
        if y < 0 ∨ x < 0 then acc2
        else setCell acc2 y.toNat x.toNat (t.type + 1)
      else acc2) acc) b

/-- Whether any occupied cell of the piece sits above the board top
(`pieceAboveTop` in `placeTetrimino`). -/
def anyCellAboveTop (t : Tetrimino) : Bool :=
  (List.range 4).any fun i => (List.range 4).any fun j =>
    let idx := getRotatedIndex t.type (i : Int) (j : Int) t.rotation
    shapeCellAt t.type idx ≠ 0 && decide (t.y + (i : Int) < 0)

/-- Transcription of `placeTetrimino()` from main.cpp: write the piece onto
the board, clear `pieceWasKickedUp`; if any occupied cell was above the top,
set `gameOver` and return early (soft-drop scoring, the distance trackers and
the `hasSwapped` reset are skipped); otherwise award 1 point per soft-dropped
row, reset both drop-distance trackers and clear `hasSwapped`. -/
def placeTetrimino (st : GameState) : GameState :=
  let st1 := { st with board := placeCells st.board st.current, pieceWasKickedUp := false }
  if anyCellAboveTop st.current then { st1 with gameOver := true }
  else
    let st2 :=
      if st1.totalSoftDropDistance > 0 then
        setScore st1 (st1.score + st1.totalSoftDropDistance.toNat)
      else st1
    { st2 with totalSoftDropDistance := 0, hardDropDistance := 0, hasSwapped := false }

/-- Transcription of `spawnNewTetrimino()` from main.cpp: the next piece
becomes current; its spawn column centers the occupied-column span of its
shape; the queue shifts and a fresh random piece (uniform `rand() % 7`) fills
the back; the spawn row puts the bottommost occupied row at board row 0; a
spawn into an invalid position sets `gameOver`. -/
def spawnNewTetrimino (st : GameState) : GameState :=
  let cur0 := st.nextT
  let occupied : Nat → Nat → Bool := fun i j =>
    shapeCellAt cur0.type (getRotatedIndex cur0.type (i : Int) (j : Int) cur0.rotation) ≠ 0
  let span := (List.range 4).foldl (fun (p : Int × Int) i =>
    (List.range 4).foldl (fun (q : Int × Int) j =>
      if occupied i j then (min q.1 (j : Int), max q.2 (j : Int)) else q) p) (4, -1)
  let pieceWidth := span.2 - span.1 + 1
  let newX := (BOARD_WIDTH - pieceWidth).tdiv 2 - span.1
  let bottommostRow : Int :=
    match [3, 2, 1, 0].find? (fun i => (List.range 4).any fun j => occupied i j) with
    | some i => (i : Int)
    | none => -1
  let cur1 := { cur0 with x := newX, y := -bottommostRow }
  let st1 := { st with current := cur1, nextT := st.nextT1, nextT1 := st.nextT2,
                       nextT2 := Tetrimino.make ((st.rng.headD 0 % 7 : Nat) : Int),
                       rng := st.rng.tail }
  if ¬ isPositionValid cur1 st1.board then { st1 with gameOver := true } else st1

/-- The `fallSpeeds` table of `getFallSpeed()`. -/
def fallSpeeds : List Nat :=
  [800, 720, 630, 550, 470, 380, 300, 220, 130, 100,
   80, 80, 80, 80, 70, 70, 70, 50, 50, 50,
   30, 30, 30, 20, 20, 20, 20, 20, 20, 16]

/-- `getFallSpeed()` from main.cpp: the table entry for the level, clamped to
index 29, with a 16 ms minimum.  A negative level would read out of bounds in
the C++; the model clamps it to index 0 (the game keeps `level ≥ 1`). -/
def fallSpeedMs (level : Int) : Nat :=
  max (fallSpeeds.getD (min level 29).toNat 800) 16

/-- Transcription of `TetrisGui::update()` from main.cpp: when not paused and
not over, accumulate the frame time into `fallCounter`; on a gravity tick try
`move(0, 1)`; on failure add `fallCounter` into `lockDelayCounter` and lock
the piece (place, clear lines, spawn, zero the lock delay) exactly when both
`lockDelayCounter ≥ 500` and the time since the last rotation or move is
`≥ 500`; on success zero the lock delay.  The returned flag reports whether
the piece was locked this tick. -/
def update (st : GameState) (now : Nat) : GameState × Bool :=
  if st.paused || st.gameOver then (st, false)
  else
    let elapsed := now - st.timeSinceLastFrame
    let fc := st.fallCounter + elapsed
    let st1 := { st with fallCounter := fc }
    if fallSpeedMs st.level ≤ fc then
      let moved := move st1 0 1 now
      if !moved.2 then
        let st2 : GameState := { moved.1 with lockDelayCounter := moved.1.lockDelayCounter + fc }
        if decide (500 ≤ st2.lockDelayCounter) && decide (500 ≤ now - st2.lastRotationOrMoveTime) then
          let st3 := spawnNewTetrimino (clearLines (placeTetrimino st2))
          ({ st3 with lockDelayCounter := 0, fallCounter := 0, timeSinceLastFrame := now }, true)
        else ({ st2 with fallCounter := 0, timeSinceLastFrame := now }, false)
      else ({ moved.1 with lockDelayCounter := 0, fallCounter := 0, timeSinceLastFrame := now }, false)
    else ({ st1 with timeSinceLastFrame := now }, false)

/-- Transcription of `resetGame()` from main.cpp (game-state effects only):
reset the transient rotation/scoring flags, zero the board, spawn the first
piece from the stale `nextTetrimino`, then draw three fresh queue pieces,
clear the hold slot and the swap flag, zero the score and counters, and
unpause. -/
def resetGame (st : GameState) : GameState :=
  let st1 := { st with lastWallKickApplied := false, previousClearWasTetris := false,
                       previousClearWasTSpin := false, backToBackCount := 1,
                       board := List.replicate 20 zeroRow }
  let st2 := spawnNewTetrimino st1
  let st3 := { st2 with nextT := Tetrimino.make ((st2.rng.headD 0 % 7 : Nat) : Int),
                        nextT1 := Tetrimino.make ((st2.rng.tail.headD 0 % 7 : Nat) : Int),
                        nextT2 := Tetrimino.make ((st2.rng.tail.tail.headD 0 % 7 : Nat) : Int),
                        rng := st2.rng.tail.tail.tail,
                        stored := Tetrimino.make (-1), hasSwapped := false }
  let st4 := setScore st3 0
  { st4 with linesCleared := 0, level := 1, gameOver := false, paused := false }

/-- A piece object of the save-state JSON: each field present iff the JSON
holds a number there (`cJSON_IsNumber`). -/
structure SavedPiece where
  type : Option Int
  rotation : Option Int
  x : Option Int
  y : Option Int
deriving Repr, DecidableEq

/-- The parsed save-state JSON as `loadGameState` consumes it: a field is
`none` when the corresponding `cJSON_Is...` test fails (missing or
wrongly-typed), in which case the in-memory value is left untouched.  `score`
and `maxHighScore` are serialized as numeric strings and parsed with
`std::stoull`, hence `Nat`.  The board is an optional array of up to 20
optional rows of up to 20 optional number cells; a missing/non-number entry
leaves the old cell. -/
structure SavedState where
  score : Option Nat
  maxHighScore : Option Nat
  paused : Option Bool
  gameOver : Option Bool
  linesCleared : Option Int
  level : Option Int
  hasSwapped : Option Bool
  lastWallKickApplied : Option Bool
  previousClearWasTetris : Option Bool
  previousClearWasTSpin : Option Bool
  backToBackCount : Option Int
  current : Option SavedPiece
  stored : Option SavedPiece
  nextType : Option Int
  next1Type : Option Int
  next2Type : Option Int
  board : Option (List (Option (List (Option Int))))
deriving Repr, DecidableEq

/-- The empty save: every field absent (nothing parses). -/
def SavedState.empty : SavedState :=
  ⟨none, none, none, none, none, none, none, none, none, none, none, none, none,
   none, none, none, none⟩

/-- The piece-loading pattern of `loadGameState`: each numeric component
present in the JSON overwrites the in-memory one. -/
def loadPiece (p : Tetrimino) (sp : Option SavedPiece) : Tetrimino :=
  match sp with
  | none => p
  | some s => { type := s.type.getD p.type, rotation := s.rotation.getD p.rotation,
                x := s.x.getD p.x, y := s.y.getD p.y }

/-- The board-loading loop of `loadGameState` (main.cpp lines 1571-1584): for
each of the 20 rows, a JSON row that is an array overwrites the cells that are
numbers, cell by cell; anything missing leaves the old cell.  There is no
validation of the loaded cell values. -/
def loadBoard (old : List (List Int)) (sv : Option (List (Option (List (Option Int))))) :
    List (List Int) :=
  match sv with
  | none => old
  | some rows =>
    (List.range 20).map fun i =>
      match rows.getD i none with
      | none => old.getD i []
      | some r =>
        (List.range 10).map fun j =>
          match r.getD j none with
          | some v => v
          | none => (old.getD i []).getD j 0

/-- Transcription of `loadGameState()` from main.cpp, after the file has been
read and parsed (fields of `SavedState`): the loaded score is applied through
`setScore` (which can only raise `maxHighScore`), but a present `maxHighScore`
field then overwrites `TetrisElement::maxHighScore` unconditionally; the
session fields, pieces (positions for current/stored, type only for the queue)
and board cells are overwritten where present. -/
def loadGameState (st : GameState) (sv : SavedState) : GameState :=
  let st1 := match sv.score with | some s => setScore st s | none => st
  let st1 := match sv.maxHighScore with
             | some m => { st1 with maxHighScore := m }
             | none => st1
  let st1 := { st1 with
    paused := sv.paused.getD st1.paused,
    gameOver := sv.gameOver.getD st1.gameOver,
    linesCleared := sv.linesCleared.getD st1.linesCleared,
    level := sv.level.getD st1.level,
    hasSwapped := sv.hasSwapped.getD st1.hasSwapped,
    lastWallKickApplied := sv.lastWallKickApplied.getD st1.lastWallKickApplied,
    previousClearWasTetris := sv.previousClearWasTetris.getD st1.previousClearWasTetris,
    previousClearWasTSpin := sv.previousClearWasTSpin.getD st1.previousClearWasTSpin,
    backToBackCount := sv.backToBackCount.getD st1.backToBackCount,
    current := loadPiece st1.current sv.current,
    stored := loadPiece st1.stored sv.stored }
  let st1 := { st1 with
    nextT := { st1.nextT with type := sv.nextType.getD st1.nextT.type },
    nextT1 := { st1.nextT1 with type := sv.next1Type.getD st1.nextT1.type },
    nextT2 := { st1.nextT2 with type := sv.next2Type.getD st1.nextT2.type } }
  { st1 with board := loadBoard st1.board sv.board }

/-- The board-cell invariant of the spec (§8): every cell value lies in
`{0, ..., 7}`. -/
def boardInRangeB (b : List (List Int)) : Bool :=
  b.all fun r => r.all fun c => decide (0 ≤ c ∧ c ≤ 7)

/-- Every board cell a save file carries lies in `{0, ..., 7}`. -/
def savedBoardInRangeB (sv : SavedState) : Bool :=
  match sv.board with
  | none => true
  | some rows => rows.all fun orow =>
      match orow with
      | none => true
      | some row => row.all fun oc =>
          match oc with
          | none => true
          | some v => decide (0 ≤ v ∧ v ≤ 7)

/-- The cell-range invariant as a proposition. -/
def CellRange (b : List (List Int)) : Prop := ∀ r ∈ b, ∀ c ∈ r, 0 ≤ c ∧ c ≤ 7

/-! ## Concrete fixtures used by witnesses and counterexamples -/

/-- The all-empty 10×20 board. -/
def emptyBoard : List (List Int) := List.replicate 20 zeroRow

/-- A neutral game state over the empty board (the state right after
construction, with a fixed piece queue and an empty RNG stream). -/
def sampleState : GameState :=
  { board := emptyBoard, current := Tetrimino.make 0, nextT := Tetrimino.make 1,
    nextT1 := Tetrimino.make 2, nextT2 := Tetrimino.make 4, stored := Tetrimino.make (-1),
    hasSwapped := false, score := 0, maxHighScore := 0, linesCleared := 0, level := 1,
    linesClearedForLevelUp := 0, paused := false, gameOver := false, fallCounter := 0,
    lockDelayCounter := 0, lockDelayMoves := 0, lastRotationOrMoveTime := 0,
    timeSinceLastFrame := 0, totalSoftDropDistance := 0, hardDropDistance := 0,
    lastWallKickApplied := false, previousClearWasTetris := false,
    previousClearWasTSpin := false, backToBackCount := 1, pieceWasKickedUp := false,
    linesClearedText := "", linesClearedScore := 0, rng := [] }

/-- A T piece resting on the floor of the empty board: rotating it clockwise
must kick it up by one row (standard kick `(-1, -1)`). -/
def tFloorState : GameState :=
  { sampleState with current := { x := 3, y := 18, type := 5, rotation := 0 } }

/-- A T piece floating mid-air with `pieceWasKickedUp` set, as it is right
after an upward kick. -/
def kickedUpState : GameState :=
  { sampleState with current := { x := 3, y := 5, type := 5, rotation := 0 },
                     pieceWasKickedUp := true }

/-- An O piece in open space. -/
def oPieceState : GameState :=
  { sampleState with current := { x := 4, y := 10, type := 3, rotation := 0 } }

/-- A grounded T piece whose lock-delay move budget is exhausted
(`lockDelayMoves = 15`) and whose lock-delay counter has accumulated 300 ms. -/
def cappedState : GameState :=
  { sampleState with current := { x := 3, y := 18, type := 5, rotation := 0 },
                     lockDelayMoves := 15, lockDelayCounter := 300 }

/-- A grounded T piece with the clocks positioned so that the next gravity
tick at time 800 satisfies both lock conditions. -/
def groundedState : GameState :=
  { sampleState with current := { x := 3, y := 18, type := 5, rotation := 0 },
                     nextT := Tetrimino.make 3 }

/-- A fully filled board row. -/
def fullRow : List Int := List.replicate 10 1

/-- A board whose bottom four rows are full. -/
def fourFullBoard : List (List Int) :=
  List.replicate 16 zeroRow ++ List.replicate 4 fullRow

/-- A state about to clear a back-to-back Tetris at level 1: four full rows,
the previous clear was a Tetris, chain count 1. -/
def tetrisAgainState : GameState :=
  { sampleState with board := fourFullBoard, previousClearWasTetris := true }

/-- A board with two separated full rows (rows 17 and 19). -/
def twoFullBoard : List (List Int) :=
  List.replicate 17 zeroRow ++ [fullRow, zeroRow, fullRow]

/-- A state whose in-memory high score is 100. -/
def highScoreState : GameState := { sampleState with maxHighScore := 100 }

/-- A save file whose stored score is 0 and stored `maxHighScore` is 5 —
lower than the in-memory high score of `highScoreState`. -/
def lowSave : SavedState :=
  { SavedState.empty with score := some 0, maxHighScore := some 5 }

/-- A save file whose board holds the out-of-range cell value 8 at (0,0). -/
def badCellSave : SavedState :=
  { SavedState.empty with board := some [some [some 8]] }

/-! ## Helper lemmas -/

lemma rotateAttempt_valid {b : List (List Int)} {cur : Tetrimino} {d : Int}
    {pk : Tetrimino × Bool × Bool} (h : rotateAttempt b cur d = some pk) :
    isPositionValid pk.1 b = true := by
  unfold rotateAttempt at h
  dsimp only at h
  split at h
  next hvalid => cases h; exact hvalid
  next =>
    split at h
    next k hfind =>
      cases h
      have hp := List.find?_some hfind
      simpa using hp
    next =>
      split at h
      next k2 hfind2 =>
        cases h
        have hp := List.find?_some hfind2
        simpa using hp
      next => exact absurd h (by simp)

lemma rotatePiece_board (st : GameState) (d : Int) (now : Nat) :
    (rotatePiece st d now).board = st.board := by
  unfold rotatePiece
  split
  · rfl
  · split
    · dsimp only
      split
      · split <;> rfl
      · rfl
    · rfl

lemma rotatePiece_outcome (st : GameState) (d : Int) (now : Nat) :
    isPositionValid (rotatePiece st d now).current st.board = true ∨
      (rotatePiece st d now).current = st.current := by
  unfold rotatePiece
  split
  · exact Or.inr rfl
  · split
    next pk hpk =>
      dsimp only
      have hv := rotateAttempt_valid hpk
      split
      · split
        · exact Or.inl hv
        · exact Or.inl hv
      · exact Or.inl hv
    next => exact Or.inr rfl

lemma setScore_le_maxHighScore (st : GameState) (s : Nat) :
    st.maxHighScore ≤ (setScore st s).maxHighScore := by
  unfold setScore
  dsimp only
  split
  next h => exact Nat.le_of_lt h
  next => exact Nat.le_refl _

/-! ## Claims -/

/-- C1: a rotation attempt (`rotate` / `rotateCounterclockwise`, both
delegating to `rotatePiece`) either leaves the current piece in a position
satisfying `isPositionValid`, or leaves its rotation, x and y exactly equal to
their pre-call values — never partially applied — and in the revert case the
operation reports failure (returns `false`). -/
theorem claim_C1_rotation_atomic (st : GameState) (now : Nat) :
    (isPositionValid (rotate st now).1.current (rotate st now).1.board = true ∨
      ((rotate st now).1.current.rotation = st.current.rotation ∧
       (rotate st now).1.current.x = st.current.x ∧
       (rotate st now).1.current.y = st.current.y ∧
       (rotate st now).2 = false)) ∧
    (isPositionValid (rotateCounterclockwise st now).1.current
        (rotateCounterclockwise st now).1.board = true ∨
      ((rotateCounterclockwise st now).1.current.rotation = st.current.rotation ∧
       (rotateCounterclockwise st now).1.current.x = st.current.x ∧
       (rotateCounterclockwise st now).1.current.y = st.current.y ∧
       (rotateCounterclockwise st now).2 = false)) := by
  constructor
  · rcases rotatePiece_outcome st (-1) now with hv | he
    · left
      show isPositionValid (rotatePiece st (-1) now).current (rotatePiece st (-1) now).board = true
      rw [rotatePiece_board]
      exact hv
    · right
      refine ⟨?_, ?_, ?_, ?_⟩ <;> simp [rotate, he]
  · rcases rotatePiece_outcome st 1 now with hv | he
    · left
      show isPositionValid (rotatePiece st 1 now).current (rotatePiece st 1 now).board = true
      rw [rotatePiece_board]
      exact hv
    · right
      refine ⟨?_, ?_, ?_, ?_⟩ <;> simp [rotateCounterclockwise, he]

/-- C9 (counterexample to the claim as stated): rotating an O piece leaves the
piece unchanged, but the operation reports *failure* (`false`), not success:
`rotatePiece` returns early for type 3 and the success test of `rotate` —
"did rotation, x or y change?" — then comes out false. -/
theorem claim_C9_cex :
    oPieceState.current.type = 3 ∧
    (rotate oPieceState 0).1.current = oPieceState.current ∧
    (rotate oPieceState 0).2 = false ∧
    (rotateCounterclockwise oPieceState 0).2 = false := by decide

/-- C9 (amended): rotating an O piece (type 3) in either direction is a no-op,
but it reports failure, not success: the whole state is unchanged and
`rotate`/`rotateCounterclockwise` return `false`. -/
theorem claim_C9_o_piece_noop (st : GameState) (now : Nat) (h : st.current.type = 3) :
    (rotate st now).1 = st ∧ (rotate st now).2 = false ∧
    (rotateCounterclockwise st now).1 = st ∧ (rotateCounterclockwise st now).2 = false := by
  have h1 : rotatePiece st (-1) now = st := by unfold rotatePiece; rw [if_pos h]
  have h2 : rotatePiece st 1 now = st := by unfold rotatePiece; rw [if_pos h]
  refine ⟨?_, ?_, ?_, ?_⟩ <;> simp [rotate, rotateCounterclockwise, h1, h2]

/-- Witness for `claim_C9_o_piece_noop` at the concrete O-piece state. -/
theorem claim_C9_o_piece_noop_witness :
    oPieceState.current.type = 3 ∧
    ((rotate oPieceState 7).1 = oPieceState ∧ (rotate oPieceState 7).2 = false ∧
     (rotateCounterclockwise oPieceState 7).1 = oPieceState ∧
     (rotateCounterclockwise oPieceState 7).2 = false) :=
  ⟨by decide, claim_C9_o_piece_noop oPieceState 7 (by decide)⟩

/-- C3 (code bug): a clockwise rotation of a floor-resting T piece succeeds via
the standard kick `(-1, -1)` and records `pieceWasKickedUp`; but `isOnFloor`
returns `true` whenever `pieceWasKickedUp` is set — its own comment says the
piece "is not on the floor" in that case — so a just-kicked, mid-air piece is
reported as grounded rather than not (third conjunct: with the flag cleared the
same geometry is not on the floor). -/
theorem claim_C3_kicked_up_still_on_floor :
    (rotatePiece tFloorState (-1) 0).pieceWasKickedUp = true ∧
    isOnFloor kickedUpState = true ∧
    isOnFloor { kickedUpState with pieceWasKickedUp := false } = false := by decide

/-- C4 (code bug): `getRotatedIndex` returns `-1` for in-range cell
coordinates — e.g. the J piece (type 1) at rotation 1, cell (i=3, j=0), and the
T piece (type 5) at rotation 1, cell (i=3, j=1) — and `isPositionValid` (like
`isOnFloor`, `placeTetrimino`, `spawnNewTetrimino`) passes that `-1` unguarded
into `tetriminoShapes[type][rotatedIndex]`, an out-of-bounds read.  The claimed
bound `0 ≤ index < 16` does not hold. -/
theorem claim_C4_rotated_index_oob :
    getRotatedIndex 1 3 0 1 = -1 ∧ getRotatedIndex 5 3 1 1 = -1 ∧
    ¬ (0 ≤ getRotatedIndex 1 3 0 1) := by decide

/-- C5 (counterexample to the claim as stated): at the cap
(`lockDelayMoves = 15`, grounded), a successful horizontal move still resets
`lockDelayCounter` — not inside `move`, which denies the reset, but through
the unconditional `if (moved) lockDelayCounter = 0` at the end of
`handleInput`: the counter goes from 300 to 0. -/
theorem claim_C5_cex :
    cappedState.lockDelayMoves = 15 ∧
    cappedState.lockDelayCounter = 300 ∧
    isOnFloor { cappedState with current := pieceShift cappedState.current (-1) 0 } = true ∧
    (move cappedState (-1) 0 999).2 = true ∧
    (inputMove cappedState (-1) 999).lockDelayCounter = 0 := by decide

/-- C5 (amended): while grounded with `lockDelayMoves` at the cap of 15, a
further successful horizontal move or rotation is denied every reset *inside*
`move` resp. `rotatePiece`: `lockDelayCounter`, `lastRotationOrMoveTime` and
`lockDelayMoves` are left unchanged there (conjuncts 1-3 for a successful
grounded horizontal move, conjuncts 6-8 for a successful grounded rotation in
either direction); but the input handler then zeroes `lockDelayCounter`
unconditionally after any action that reported success (conjunct 5 for the
move path, last conjunct for the rotation path), so the cap effectively denies
only the move-timestamp reset (and the budget increment). -/
theorem claim_C5_cap_denies_internal_reset (st : GameState) (dx d : Int) (now : Nat)
    (pk : Tetrimino × Bool × Bool)
    (hcap : maxLockDelayMoves ≤ st.lockDelayMoves)
    (hdx : dx ≠ 0)
    (hvalid : isPositionValid (pieceShift st.current dx 0) st.board = true)
    (hfloor : isOnFloor { st with current := pieceShift st.current dx 0 } = true)
    (hatt : rotateAttempt st.board st.current d = some pk)
    (hfloorR : isOnFloor { st with current := pk.1, lastWallKickApplied := pk.2.1,
                                   pieceWasKickedUp := pk.2.2 } = true) :
    (move st dx 0 now).1.lockDelayCounter = st.lockDelayCounter ∧
    (move st dx 0 now).1.lastRotationOrMoveTime = st.lastRotationOrMoveTime ∧
    (move st dx 0 now).1.lockDelayMoves = st.lockDelayMoves ∧
    (move st dx 0 now).2 = true ∧
    (inputMove st dx now).lockDelayCounter = 0 ∧
    (rotatePiece st d now).lockDelayCounter = st.lockDelayCounter ∧
    (rotatePiece st d now).lastRotationOrMoveTime = st.lastRotationOrMoveTime ∧
    (rotatePiece st d now).lockDelayMoves = st.lockDelayMoves ∧
    (∀ st2 : GameState, ∀ n : Nat,
      (rotate st2 n).2 = true → (inputRotate st2 n).lockDelayCounter = 0) := by
  have hmv : move st dx 0 now = ({ st with current := pieceShift st.current dx 0 }, true) := by
    unfold move
    dsimp only
    rw [if_neg (by simp [hvalid]), if_neg (by decide), if_pos hdx, if_pos hfloor,
        if_neg (not_lt.mpr hcap)]
  have hrp : rotatePiece st d now = st ∨
      rotatePiece st d now = { st with current := pk.1, lastWallKickApplied := pk.2.1,
                                       pieceWasKickedUp := pk.2.2 } := by
    unfold rotatePiece
    split
    · exact Or.inl rfl
    · rw [hatt]
      dsimp only
      rw [if_pos hfloorR, if_neg (not_lt.mpr hcap)]
      exact Or.inr rfl
  have hrp1 : (rotatePiece st d now).lockDelayCounter = st.lockDelayCounter := by
    rcases hrp with h | h <;> rw [h]
  have hrp2 : (rotatePiece st d now).lastRotationOrMoveTime = st.lastRotationOrMoveTime := by
    rcases hrp with h | h <;> rw [h]
  have hrp3 : (rotatePiece st d now).lockDelayMoves = st.lockDelayMoves := by
    rcases hrp with h | h <;> rw [h]
  refine ⟨by rw [hmv], by rw [hmv], by rw [hmv], by rw [hmv], by simp [inputMove, hmv],
          hrp1, hrp2, hrp3, ?_⟩
  intro st2 n h
  simp [inputRotate, h]

/-- Witness for `claim_C5_cap_denies_internal_reset` at the concrete capped
state: a left press and a clockwise rotation (which succeeds via the standard
kick `(-1, -1)`) both succeed while grounded at the cap. -/
theorem claim_C5_cap_denies_internal_reset_witness :
    (maxLockDelayMoves ≤ cappedState.lockDelayMoves ∧ (-1 : Int) ≠ 0 ∧
     isPositionValid (pieceShift cappedState.current (-1) 0) cappedState.board = true ∧
     isOnFloor { cappedState with current := pieceShift cappedState.current (-1) 0 } = true ∧
     rotateAttempt cappedState.board cappedState.current (-1) =
       some (⟨2, 17, 5, 3⟩, true, true) ∧
     isOnFloor { cappedState with current := (⟨2, 17, 5, 3⟩ : Tetrimino),
                                  lastWallKickApplied := true,
                                  pieceWasKickedUp := true } = true) ∧
    ((move cappedState (-1) 0 999).1.lockDelayCounter = cappedState.lockDelayCounter ∧
     (move cappedState (-1) 0 999).1.lastRotationOrMoveTime = cappedState.lastRotationOrMoveTime ∧
     (move cappedState (-1) 0 999).1.lockDelayMoves = cappedState.lockDelayMoves ∧
     (move cappedState (-1) 0 999).2 = true ∧
     (inputMove cappedState (-1) 999).lockDelayCounter = 0 ∧
     (rotatePiece cappedState (-1) 999).lockDelayCounter = cappedState.lockDelayCounter ∧
     (rotatePiece cappedState (-1) 999).lastRotationOrMoveTime = cappedState.lastRotationOrMoveTime ∧
     (rotatePiece cappedState (-1) 999).lockDelayMoves = cappedState.lockDelayMoves ∧
     (∀ st2 : GameState, ∀ n : Nat,
       (rotate st2 n).2 = true → (inputRotate st2 n).lockDelayCounter = 0)) :=
  ⟨⟨by decide, by decide, by decide, by decide, by decide, by decide⟩,
   claim_C5_cap_denies_internal_reset cappedState (-1) (-1) 999 (⟨2, 17, 5, 3⟩, true, true)
     (by decide) (by decide) (by decide) (by decide) (by decide) (by decide)⟩

/-- C8: on a gravity tick whose downward move is blocked, `update` locks the
piece (place, clear, spawn) exactly when both `lockDelayCounter` (after the
tick's accumulation) has reached 500 ms and the time since the last rotation
or move has reached 500 ms; when either clock is short the board and the
current piece are left untouched. -/
theorem claim_C8_lock_requires_both_clocks (st : GameState) (now : Nat)
    (hp : st.paused = false) (hg : st.gameOver = false)
    (htick : fallSpeedMs st.level ≤ st.fallCounter + (now - st.timeSinceLastFrame))
    (hblock : isPositionValid (pieceShift st.current 0 1) st.board = false) :
    ((update st now).2 = true ↔
      (500 ≤ st.lockDelayCounter + (st.fallCounter + (now - st.timeSinceLastFrame)) ∧
       500 ≤ now - st.lastRotationOrMoveTime)) ∧
    ((update st now).2 = false →
      (update st now).1.board = st.board ∧ (update st now).1.current = st.current) := by
  have hmv : move { st with fallCounter := st.fallCounter + (now - st.timeSinceLastFrame) } 0 1 now
      = ({ st with fallCounter := st.fallCounter + (now - st.timeSinceLastFrame) }, false) := by
    unfold move
    dsimp only
    rw [if_pos (by simp [hblock])]
  unfold update
  dsimp only
  rw [if_neg (show ¬ ((st.paused || st.gameOver) = true) by simp [hp, hg]),
      if_pos htick, hmv]
  dsimp only
  rw [if_pos (show (!(false : Bool)) = true from rfl)]
  split
  next hC =>
    have hab : 500 ≤ st.lockDelayCounter + (st.fallCounter + (now - st.timeSinceLastFrame)) ∧
        500 ≤ now - st.lastRotationOrMoveTime := by simpa using hC
    exact ⟨by simp [hab], fun h => by cases h⟩
  next hC =>
    have hab : ¬ (500 ≤ st.lockDelayCounter + (st.fallCounter + (now - st.timeSinceLastFrame)) ∧
        500 ≤ now - st.lastRotationOrMoveTime) := by simpa using hC
    exact ⟨by simp [hab], fun _ => ⟨rfl, rfl⟩⟩

/-- Witness for `claim_C8_lock_requires_both_clocks`: a grounded T piece at
level 1 with both clocks expired at time 800. -/
theorem claim_C8_lock_requires_both_clocks_witness :
    (groundedState.paused = false ∧ groundedState.gameOver = false ∧
     fallSpeedMs groundedState.level ≤
       groundedState.fallCounter + (800 - groundedState.timeSinceLastFrame) ∧
     isPositionValid (pieceShift groundedState.current 0 1) groundedState.board = false) ∧
    (((update groundedState 800).2 = true ↔
       (500 ≤ groundedState.lockDelayCounter +
          (groundedState.fallCounter + (800 - groundedState.timeSinceLastFrame)) ∧
        500 ≤ 800 - groundedState.lastRotationOrMoveTime)) ∧
     ((update groundedState 800).2 = false →
       (update groundedState 800).1.board = groundedState.board ∧
       (update groundedState 800).1.current = groundedState.current)) :=
  ⟨⟨rfl, rfl, by decide, by decide⟩,
   claim_C8_lock_requires_both_clocks groundedState 800 rfl rfl (by decide) (by decide)⟩

/-- C2 (counterexample to the claim as stated): loading a save whose stored
`maxHighScore` is 5 while the in-memory value is 100 leaves `maxHighScore = 5`
— `loadGameState` assigns the stored value unconditionally instead of keeping
the larger one, so `maxHighScore` decreases. -/
theorem claim_C2_cex :
    highScoreState.maxHighScore = 100 ∧
    (loadGameState highScoreState lowSave).maxHighScore = 5 := by decide

/-- C2 (amended): `setScore` — the path through which every in-game score
change flows — never lowers `maxHighScore`; `loadGameState` preserves that
monotonicity only when its `maxHighScore` field is absent, and otherwise
overwrites `maxHighScore` with the stored value unconditionally, which can
lower it. -/
theorem claim_C2_high_score_monotonic (st : GameState) (s : Nat) (sv : SavedState) :
    st.maxHighScore ≤ (setScore st s).maxHighScore ∧
    (sv.maxHighScore = none → st.maxHighScore ≤ (loadGameState st sv).maxHighScore) ∧
    (∀ m, sv.maxHighScore = some m → (loadGameState st sv).maxHighScore = m) := by
  refine ⟨setScore_le_maxHighScore st s, ?_, ?_⟩
  · intro hnone
    unfold loadGameState
    rw [hnone]
    cases hs : sv.score
    · exact Nat.le_refl _
    · exact setScore_le_maxHighScore st _
  · intro m hm
    unfold loadGameState
    rw [hm]

/-- Witness for `claim_C2_high_score_monotonic` at the concrete
high-score-100 state and the stored-value-5 save. -/
theorem claim_C2_high_score_monotonic_witness :
    lowSave.maxHighScore = some 5 ∧
    (highScoreState.maxHighScore ≤ (setScore highScoreState 7).maxHighScore ∧
     (lowSave.maxHighScore = none →
       highScoreState.maxHighScore ≤ (loadGameState highScoreState lowSave).maxHighScore) ∧
     (∀ m, lowSave.maxHighScore = some m →
       (loadGameState highScoreState lowSave).maxHighScore = m)) :=
  ⟨by decide, claim_C2_high_score_monotonic highScoreState 7 lowSave⟩

lemma isFullRow_zeroRow : isFullRow zeroRow = false := by decide

/-- Characterization of the row-scanning loop: continuing the scan at index
`i` of a board whose first `i` rows are not full removes every full row among
the remaining rows, pushing one empty row on top per removal, and counts the
removed rows. -/
lemma clearRowsAux_spec : ∀ (fuel i : Nat) (b : List (List Int)),
    b.length = i + fuel →
    (∀ r ∈ b.take i, isFullRow r = false) →
    clearRowsAux fuel i b =
      (List.replicate (((b.drop i).filter (fun r => isFullRow r)).length) zeroRow ++
         b.filter (fun r => !isFullRow r),
       ((b.drop i).filter (fun r => isFullRow r)).length) := by
  intro fuel
  induction fuel with
  | zero =>
    intro i b hlen hpre
    have hdrop : b.drop i = [] := List.drop_eq_nil_of_le (by omega)
    have htake : b.take i = b := List.take_of_length_le (by omega)
    rw [clearRowsAux, hdrop]
    have hfilter : b.filter (fun r => !isFullRow r) = b := by
      refine List.filter_eq_self.mpr ?_
      intro a ha
      rw [← htake] at ha
      simp [hpre a ha]
    simp [hfilter]
  | succ fuel ih =>
    intro i b hlen hpre
    have hi : i < b.length := by omega
    have hgetD : b.getD i [] = b[i] := List.getD_eq_getElem b [] hi
    have htakei : (b.take i).length = i := by
      rw [List.length_take]
      omega
    have hfiltertake : (b.take i).filter (fun r => !isFullRow r) = b.take i :=
      List.filter_eq_self.mpr (by intro a ha; simp [hpre a ha])
    have hdropi : b.drop i = b[i] :: b.drop (i + 1) :=
      List.drop_eq_getElem_cons hi
    rw [clearRowsAux]
    by_cases hfull : isFullRow (b.getD i []) = true
    · rw [if_pos hfull]
      have hfull' : isFullRow b[i] = true := hgetD ▸ hfull
      have hlen' : (clearAt b i).length = (i + 1) + fuel := by
        unfold clearAt
        rw [List.length_cons, List.length_append, htakei, List.length_drop]
        omega
      have hpre' : ∀ r ∈ (clearAt b i).take (i + 1), isFullRow r = false := by
        intro r hr
        unfold clearAt at hr
        rw [List.take_succ_cons] at hr
        rcases List.mem_cons.mp hr with h0 | hmem
        · rw [h0]
          exact isFullRow_zeroRow
        · rw [List.take_left' htakei] at hmem
          exact hpre r hmem
      have hrec := ih (i + 1) (clearAt b i) hlen' hpre'
      rw [hrec]
      have hdropb' : (clearAt b i).drop (i + 1) = b.drop (i + 1) := by
        unfold clearAt
        rw [List.drop_succ_cons, List.drop_left' htakei]
      have hk : ((b.drop i).filter (fun r => isFullRow r)).length
          = ((b.drop (i + 1)).filter (fun r => isFullRow r)).length + 1 := by
        rw [hdropi, List.filter_cons_of_pos hfull', List.length_cons]
      have hfb' : (clearAt b i).filter (fun r => !isFullRow r)
          = zeroRow :: (b.take i ++ (b.drop (i + 1)).filter (fun r => !isFullRow r)) := by
        unfold clearAt
        rw [List.filter_cons_of_pos (by simp [isFullRow_zeroRow]), List.filter_append,
            hfiltertake]
      have hfb : b.filter (fun r => !isFullRow r)
          = b.take i ++ (b.drop (i + 1)).filter (fun r => !isFullRow r) := by
        conv_lhs => rw [← List.take_append_drop i b]
        rw [List.filter_append, hfiltertake, hdropi,
            List.filter_cons_of_neg (by simp [hfull'])]
      rw [hk, hdropb', hfb', hfb, List.replicate_succ', List.append_assoc,
          List.singleton_append]
    · rw [if_neg hfull]
      have hfullF : isFullRow b[i] = false :=
        hgetD ▸ eq_false_of_ne_true hfull
      have hpre' : ∀ r ∈ b.take (i + 1), isFullRow r = false := by
        intro r hr
        rw [List.take_succ, List.getElem?_eq_getElem hi] at hr
        rcases List.mem_append.mp hr with hmem | hmem
        · exact hpre r hmem
        · rw [Option.toList_some, List.mem_singleton] at hmem
          rw [hmem]
          exact hfullF
      have hrec := ih (i + 1) b (by omega) hpre'
      rw [hrec, hdropi, List.filter_cons_of_neg (by simp [hfullF])]

/-- C7: the line-clearing pass of `clearLines` scans top to bottom, clears a
row exactly when all 10 of its cells are non-zero (third conjunct), and for
each full row immediately shifts everything above down by one with a fresh
empty top row — so one pass removes all simultaneously full rows, leaves the
surviving rows in order with no gap, and stacks exactly one empty row on top
per cleared row; the reported count is the number of full rows. -/
theorem claim_C7_full_rows_cleared_in_one_pass (b : List (List Int))
    (hlen : b.length = 20) :
    (clearFullRows b).1 =
      List.replicate ((b.filter (fun r => isFullRow r)).length) zeroRow ++
        b.filter (fun r => !isFullRow r) ∧
    (clearFullRows b).2 = (b.filter (fun r => isFullRow r)).length ∧
    (∀ r : List Int, r.length = 10 → (isFullRow r = true ↔ ∀ c ∈ r, c ≠ 0)) := by
  have h := clearRowsAux_spec 20 0 b (by omega) (by simp)
  rw [List.drop_zero] at h
  unfold clearFullRows
  refine ⟨by rw [h], by rw [h], ?_⟩
  intro r hr
  unfold isFullRow
  rw [List.all_eq_true]
  constructor
  · intro hall c hc
    obtain ⟨j, hj, hcj⟩ := List.mem_iff_getElem.mp hc
    have hmem : j ∈ List.range 10 := List.mem_range.mpr (by omega)
    have := hall j hmem
    rw [List.getD_eq_getElem r 0 hj] at this
    rw [← hcj]
    simpa using this
  · intro hmem j hj
    rw [List.mem_range] at hj
    have hjl : j < r.length := by omega
    rw [List.getD_eq_getElem r 0 hjl]
    simpa using hmem _ (List.getElem_mem hjl)

/-- Witness for `claim_C7_full_rows_cleared_in_one_pass` on a concrete board
with two separated full rows. -/
theorem claim_C7_full_rows_cleared_in_one_pass_witness :
    twoFullBoard.length = 20 ∧
    ((clearFullRows twoFullBoard).1 =
      List.replicate ((twoFullBoard.filter (fun r => isFullRow r)).length) zeroRow ++
        twoFullBoard.filter (fun r => !isFullRow r) ∧
     (clearFullRows twoFullBoard).2 =
       (twoFullBoard.filter (fun r => isFullRow r)).length ∧
     (∀ r : List Int, r.length = 10 → (isFullRow r = true ↔ ∀ c ∈ r, c ≠ 0))) :=
  ⟨by decide, claim_C7_full_rows_cleared_in_one_pass twoFullBoard (by decide)⟩

lemma isMiniTSpinB_of_tSpin (st : GameState) (h : isTSpinB st = true) :
    isMiniTSpinB st = false := by
  unfold isMiniTSpinB
  split
  · rfl
  · simp [h]

lemma band_and_self (a b : Bool) : (b && (a && b)) = (a && b) := by
  cases a <;> cases b <;> rfl

lemma toNat_mul_level (b : Nat) (lvl : Int) (h : 1 ≤ lvl) :
    ((b : Int) * lvl).toNat = b * lvl.toNat := by
  obtain ⟨m, hm⟩ := Int.eq_ofNat_of_zero_le (le_trans zero_le_one h)
  subst hm
  rw [← Int.natCast_mul, Int.toNat_natCast, Int.toNat_natCast]

/-- C6: for every clear of `n` lines (1 ≤ n ≤ 4) at level ≥ 1, `clearLines`
adds exactly the spec's score delta — base 100/300/500/800 for n = 1/2/3/4,
with the T-spin variants 400 (single) and 700 (double), multiplied by 1.5 and
truncated when the clear is back-to-back (current clear a Tetris or T-spin and
the previous qualifying clear too), times the level — and updates
`backToBackCount` by incrementing it on a qualifying back-to-back clear and
resetting it to 1 otherwise.  In particular (second conjunct) a second
consecutive Tetris at level 1 yields a score delta of 1200 and the label
"2x Tetris". -/
theorem claim_C6_scoring_formula :
    (∀ st : GameState,
      1 ≤ (clearFullRows st.board).2 → (clearFullRows st.board).2 ≤ 4 → 1 ≤ st.level →
      (clearLines st).score = st.score +
        specScoreDelta (clearFullRows st.board).2
          (isTSpinB { st with board := (clearFullRows st.board).1,
                              linesCleared := st.linesCleared + ((clearFullRows st.board).2 : Int) })
          ((st.previousClearWasTetris || st.previousClearWasTSpin) &&
            (decide ((clearFullRows st.board).2 = 4) ||
              isTSpinB { st with board := (clearFullRows st.board).1,
                                 linesCleared := st.linesCleared + ((clearFullRows st.board).2 : Int) }))
          st.level.toNat ∧
      (clearLines st).backToBackCount =
        (if ((st.previousClearWasTetris || st.previousClearWasTSpin) &&
              (decide ((clearFullRows st.board).2 = 4) ||
                isTSpinB { st with board := (clearFullRows st.board).1,
                                   linesCleared := st.linesCleared + ((clearFullRows st.board).2 : Int) })) = true
         then st.backToBackCount + 1 else 1)) ∧
    ((clearLines tetrisAgainState).score = tetrisAgainState.score + 1200 ∧
     (clearLines tetrisAgainState).linesClearedText = "2x Tetris" ∧
     (clearLines tetrisAgainState).backToBackCount = 2 ∧
     (clearLines tetrisAgainState).previousClearWasTetris = true) := by
  constructor
  · intro st h1 h4 hlvl
    have hpos : (clearFullRows st.board).2 > 0 := by omega
    unfold clearLines
    dsimp only
    rw [if_pos hpos]
    unfold setScore
    simp only [apply_ite GameState.score, apply_ite GameState.backToBackCount, ite_self]
    refine ⟨?_, trivial⟩
    congr 1
    rw [band_and_self, toNat_mul_level _ _ hlvl]
    unfold specScoreDelta
    congr 1
    set n := (clearFullRows st.board).2 with hn
    set t := isTSpinB { st with board := (clearFullRows st.board).1,
                                linesCleared := st.linesCleared + (n : Int) } with ht
    have hbase :
        (if n = 1 then
          (if t = true then
            (if isMiniTSpinB { st with board := (clearFullRows st.board).1,
                                       linesCleared := st.linesCleared + (n : Int) } = true
             then 100 else 400)
           else 100)
         else if n = 2 then (if t = true then 700 else 300)
         else if n = 3 then 500
         else if n = 4 then 800
         else 0) = specBaseScore n t := by
      cases htv : t with
      | false => unfold specBaseScore; simp
      | true =>
        have hmini := isMiniTSpinB_of_tSpin _ (ht ▸ htv)
        unfold specBaseScore
        simp [hmini]
    rw [hbase]
  · decide

/-- Witness for the universal part of `claim_C6_scoring_formula` at the
back-to-back-Tetris state. -/
theorem claim_C6_scoring_formula_witness :
    (1 ≤ (clearFullRows tetrisAgainState.board).2 ∧
     (clearFullRows tetrisAgainState.board).2 ≤ 4 ∧ 1 ≤ tetrisAgainState.level) ∧
    ((clearLines tetrisAgainState).score = tetrisAgainState.score +
        specScoreDelta (clearFullRows tetrisAgainState.board).2
          (isTSpinB { tetrisAgainState with
                        board := (clearFullRows tetrisAgainState.board).1,
                        linesCleared := tetrisAgainState.linesCleared +
                          ((clearFullRows tetrisAgainState.board).2 : Int) })
          ((tetrisAgainState.previousClearWasTetris || tetrisAgainState.previousClearWasTSpin) &&
            (decide ((clearFullRows tetrisAgainState.board).2 = 4) ||
              isTSpinB { tetrisAgainState with
                           board := (clearFullRows tetrisAgainState.board).1,
                           linesCleared := tetrisAgainState.linesCleared +
                             ((clearFullRows tetrisAgainState.board).2 : Int) }))
          tetrisAgainState.level.toNat ∧
     (clearLines tetrisAgainState).backToBackCount =
       (if ((tetrisAgainState.previousClearWasTetris || tetrisAgainState.previousClearWasTSpin) &&
             (decide ((clearFullRows tetrisAgainState.board).2 = 4) ||
               isTSpinB { tetrisAgainState with
                            board := (clearFullRows tetrisAgainState.board).1,
                            linesCleared := tetrisAgainState.linesCleared +
                              ((clearFullRows tetrisAgainState.board).2 : Int) })) = true
        then tetrisAgainState.backToBackCount + 1 else 1)) :=
  ⟨⟨by decide, by decide, by decide⟩,
   claim_C6_scoring_formula.1 tetrisAgainState (by decide) (by decide) (by decide)⟩

lemma boardInRangeB_iff (b : List (List Int)) : boardInRangeB b = true ↔ CellRange b := by
  unfold boardInRangeB CellRange
  simp only [List.all_eq_true, decide_eq_true_eq]

lemma getD_mem_or_eq {α : Type} (l : List α) (n : Nat) (d : α) :
    l.getD n d ∈ l ∨ l.getD n d = d := by
  by_cases h : n < l.length
  · left
    rw [List.getD_eq_getElem l d h]
    exact List.getElem_mem h
  · right
    exact List.getD_eq_default _ _ (by omega)

lemma cellRange_setCell {b : List (List Int)} {v : Int} (hb : CellRange b)
    (hv : 0 ≤ v ∧ v ≤ 7) (y x : Nat) : CellRange (setCell b y x v) := by
  intro r hr c hc
  rcases List.mem_or_eq_of_mem_set hr with hr' | hr'
  · exact hb r hr' c hc
  · subst hr'
    rcases List.mem_or_eq_of_mem_set hc with hc' | hc'
    · rcases getD_mem_or_eq b y [] with hrow | hrow
      · exact hb _ hrow c hc'
      · rw [hrow] at hc'
        cases hc'
    · subst hc'
      exact hv

lemma foldl_preserve {α β : Type} (P : β → Prop) (f : β → α → β) (l : List α)
    (hstep : ∀ acc a, P acc → P (f acc a)) :
    ∀ acc, P acc → P (l.foldl f acc) := by
  induction l with
  | nil => intro acc h; exact h
  | cons a l ih => intro acc h; exact ih _ (hstep acc a h)

lemma cellRange_placeCells {b : List (List Int)} {t : Tetrimino} (hb : CellRange b)
    (ht0 : 0 ≤ t.type) (ht6 : t.type ≤ 6) : CellRange (placeCells b t) := by
  unfold placeCells
  refine foldl_preserve CellRange _ _ (fun acc i hacc => ?_) b hb
  refine foldl_preserve CellRange _ _ (fun acc2 j hacc2 => ?_) acc hacc
  dsimp only
  split
  · split
    · exact hacc2
    · exact cellRange_setCell hacc2 (by omega) _ _
  · exact hacc2

lemma placeTetrimino_board (st : GameState) :
    (placeTetrimino st).board = placeCells st.board st.current := by
  unfold placeTetrimino setScore
  dsimp only
  split
  · rfl
  · split <;> rfl

lemma cellRange_clearAt {b : List (List Int)} (hb : CellRange b) (i : Nat) :
    CellRange (clearAt b i) := by
  intro r hr c hc
  unfold clearAt at hr
  rcases List.mem_cons.mp hr with h0 | hmem
  · subst h0
    rw [zeroRow] at hc
    rw [List.eq_of_mem_replicate hc]
    exact ⟨le_refl 0, by omega⟩
  · rcases List.mem_append.mp hmem with hm | hm
    · exact hb r (List.take_subset i b hm) c hc
    · exact hb r (List.drop_subset (i + 1) b hm) c hc

lemma cellRange_clearRowsAux : ∀ (fuel i : Nat) (b : List (List Int)), CellRange b →
    CellRange (clearRowsAux fuel i b).1 := by
  intro fuel
  induction fuel with
  | zero => intro i b hb; exact hb
  | succ fuel ih =>
    intro i b hb
    rw [clearRowsAux]
    split
    · exact ih (i + 1) (clearAt b i) (cellRange_clearAt hb i)
    · exact ih (i + 1) b hb

lemma cellRange_clearLines (st : GameState) (hb : CellRange st.board) :
    CellRange (clearLines st).board := by
  unfold clearLines
  dsimp only
  by_cases h : (clearFullRows st.board).2 > 0
  · rw [if_pos h]
    unfold setScore
    simp only [apply_ite GameState.board, ite_self]
    exact cellRange_clearRowsAux 20 0 st.board hb
  · rw [if_neg h]
    exact hb

lemma spawnNewTetrimino_board (st : GameState) :
    (spawnNewTetrimino st).board = st.board := by
  unfold spawnNewTetrimino
  dsimp only
  split <;> rfl

lemma move_board (st : GameState) (dx dy : Int) (now : Nat) :
    (move st dx dy now).1.board = st.board := by
  unfold move
  dsimp only
  repeat' split
  all_goals rfl

lemma resetGame_board (st : GameState) :
    (resetGame st).board = List.replicate 20 zeroRow := by
  unfold resetGame setScore
  dsimp only
  rw [spawnNewTetrimino_board]

lemma loadGameState_board (st : GameState) (sv : SavedState) :
    (loadGameState st sv).board = loadBoard st.board sv.board := by
  unfold loadGameState setScore
  dsimp only
  cases sv.score <;> cases sv.maxHighScore <;> rfl

lemma cellRange_loadBoard {old : List (List Int)} {sv : SavedState}
    (hold : CellRange old) (hsv : savedBoardInRangeB sv = true) :
    CellRange (loadBoard old sv.board) := by
  unfold loadBoard
  unfold savedBoardInRangeB at hsv
  cases hb : sv.board with
  | none => exact hold
  | some rows =>
    rw [hb] at hsv
    dsimp only at hsv ⊢
    intro r hr c hc
    rcases List.mem_map.mp hr with ⟨i, _, hri⟩
    rcases hrowD : rows.getD i none with _ | row
    · rw [hrowD] at hri
      dsimp only at hri
      subst hri
      rcases getD_mem_or_eq old i [] with hrow | hrow
      · exact hold _ hrow c hc
      · rw [hrow] at hc
        cases hc
    · rw [hrowD] at hri
      dsimp only at hri
      subst hri
      have hrowmem : (some row) ∈ rows := by
        rcases getD_mem_or_eq rows i none with hm | hm
        · rw [hrowD] at hm
          exact hm
        · rw [hrowD] at hm
          cases hm
      have hrowall := (List.all_eq_true.mp hsv) _ hrowmem
      dsimp only at hrowall
      rcases List.mem_map.mp hc with ⟨j, _, hcj⟩
      rcases hcD : row.getD j none with _ | v
      · rw [hcD] at hcj
        dsimp only at hcj
        rw [← hcj]
        rcases getD_mem_or_eq (old.getD i []) j 0 with hcm | hcm
        · rcases getD_mem_or_eq old i [] with hrow' | hrow'
          · exact hold _ hrow' _ hcm
          · rw [hrow'] at hcm
            cases hcm
        · rw [hcm]
          exact ⟨le_refl 0, by omega⟩
      · rw [hcD] at hcj
        dsimp only at hcj
        rw [← hcj]
        have hvmem : (some v) ∈ row := by
          rcases getD_mem_or_eq row j none with hm | hm
          · rw [hcD] at hm
            exact hm
          · rw [hcD] at hm
            cases hm
        have hv := (List.all_eq_true.mp hrowall) _ hvmem
        dsimp only at hv
        exact of_decide_eq_true hv

/-- C10 (counterexample to the claim as stated): `loadGameState` copies board
cells from the save file without validation, so loading a save holding the
cell value 8 leaves a board cell equal to 8 — outside `{0, ..., 7}`. -/
theorem claim_C10_cex :
    boardInRangeB sampleState.board = true ∧
    cellAt (loadGameState sampleState badCellSave).board 0 0 = 8 ∧
    boardInRangeB (loadGameState sampleState badCellSave).board = false := by decide

/-- C10 (amended): the cell-range invariant `{0, ..., 7}` is preserved by
every in-engine board operation — `placeTetrimino` (which writes `type + 1`
for a piece type in 0..6), `clearLines`, `spawnNewTetrimino`, `move`,
`rotatePiece` (the latter three never touch the board) and `resetGame` (which
zeroes the board) — and by `loadGameState` only under the additional
assumption that every cell the save file carries is itself in `{0, ..., 7}`:
the load path performs no validation. -/
theorem claim_C10_cell_range (st : GameState) (hb : boardInRangeB st.board = true) :
    (0 ≤ st.current.type → st.current.type ≤ 6 →
      boardInRangeB (placeTetrimino st).board = true) ∧
    boardInRangeB (clearLines st).board = true ∧
    (spawnNewTetrimino st).board = st.board ∧
    (∀ dx dy : Int, ∀ now : Nat, (move st dx dy now).1.board = st.board) ∧
    (∀ d : Int, ∀ now : Nat, (rotatePiece st d now).board = st.board) ∧
    (resetGame st).board = List.replicate 20 zeroRow ∧
    boardInRangeB (List.replicate 20 zeroRow) = true ∧
    (∀ sv : SavedState, savedBoardInRangeB sv = true →
      boardInRangeB (loadGameState st sv).board = true) := by
  have hcr : CellRange st.board := (boardInRangeB_iff st.board).mp hb
  refine ⟨?_, ?_, spawnNewTetrimino_board st, fun dx dy now => move_board st dx dy now,
          fun d now => rotatePiece_board st d now, resetGame_board st, by decide, ?_⟩
  · intro ht0 ht6
    rw [placeTetrimino_board]
    exact (boardInRangeB_iff _).mpr (cellRange_placeCells hcr ht0 ht6)
  · exact (boardInRangeB_iff _).mpr (cellRange_clearLines st hcr)
  · intro sv hsv
    rw [loadGameState_board]
    exact (boardInRangeB_iff _).mpr (cellRange_loadBoard hcr hsv)

/-- Witness for `claim_C10_cell_range` at the concrete grounded state. -/
theorem claim_C10_cell_range_witness :
    boardInRangeB groundedState.board = true ∧
    ((0 ≤ groundedState.current.type → groundedState.current.type ≤ 6 →
       boardInRangeB (placeTetrimino groundedState).board = true) ∧
     boardInRangeB (clearLines groundedState).board = true ∧
     (spawnNewTetrimino groundedState).board = groundedState.board ∧
     (∀ dx dy : Int, ∀ now : Nat, (move groundedState dx dy now).1.board = groundedState.board) ∧
     (∀ d : Int, ∀ now : Nat, (rotatePiece groundedState d now).board = groundedState.board) ∧
     (resetGame groundedState).board = List.replicate 20 zeroRow ∧
     boardInRangeB (List.replicate 20 zeroRow) = true ∧
     (∀ sv : SavedState, savedBoardInRangeB sv = true →
       boardInRangeB (loadGameState groundedState sv).board = true)) :=
  ⟨by decide, claim_C10_cell_range groundedState (by decide)⟩

end TetrisOverlay
